import Mathlib

/-
Verification development for the gpt-code-review repository.

The Python sources (src/main.py, src/clients/github_client.py,
src/clients/openai_client.py) are shallowly embedded below.  Python strings
are modelled by Lean `String` (whose `data` field is the list of characters),
`None`-able values by `Option`, raised exceptions by `Except` or an explicit
exception component in result types, and the observable external actions of a
run (comments posted to GitHub, completion requests issued to OpenAI) by an
explicit `Effects` record threaded through the orchestration functions.
-/

namespace GPTReview

/-- Python exception classes that the embedded fragment can raise. -/
inductive PyExn where
  | indexError
  | typeError
  | valueError
  | nameError
  deriving DecidableEq

/-- Boolean test that the list `p` is a leading segment of `s`
(the semantics of Python `s.startswith(p)` on character lists). -/
def pyStartsWith : List Char → List Char → Bool
  | [], _ => true
  | _ :: _, [] => false
  | p :: ps, c :: cs => p == c && pyStartsWith ps cs

theorem pyStartsWith_append {p s : List Char} (h : pyStartsWith p s = true) :
    p ++ s.drop p.length = s := by
  induction p generalizing s with
  | nil => simp
  | cons a as ih =>
    cases s with
    | nil => simp [pyStartsWith] at h
    | cons c cs =>
      simp only [pyStartsWith, Bool.and_eq_true, beq_iff_eq] at h
      obtain ⟨rfl, h2⟩ := h
      simpa using ih h2

/-- Fuel-indexed worker for `pySplitList`.  Scans the list left to right;
whenever the separator occurs (leftmost, non-overlapping, as Python
`str.split` does) it closes the current piece and continues after the
separator.  The fuel argument only makes the recursion structural; it is
always called with fuel at least the length of the scanned list. -/
def pySplitAux (sep : List Char) : Nat → List Char → List (List Char)
  | _, [] => [[]]
  | 0, s => [s]
  | fuel + 1, c :: cs =>
    if pyStartsWith sep (c :: cs) then
      [] :: pySplitAux sep fuel ((c :: cs).drop sep.length)
    else
      match pySplitAux sep fuel cs with
      | [] => [[c]]
      | t :: ts => (c :: t) :: ts

/-- The semantics of Python `s.split(sep)` (for a non-empty separator) on
character lists. -/
def pySplitList (sep s : List Char) : List (List Char) :=
  pySplitAux sep s.length s

/-- Python `s.split(sep)` on strings, for a non-empty separator. -/
def pySplit (sep s : String) : List String :=
  (pySplitList sep.data s.data).map String.mk

/-- Python `sep.join(pieces)`. -/
def pyJoin (sep : String) (pieces : List String) : String :=
  String.mk (List.intercalate sep.data (pieces.map String.data))

theorem pySplitAux_ne_nil (sep : List Char) (fuel : Nat) (s : List Char) :
    pySplitAux sep fuel s ≠ [] := by
  match fuel, s with
  | _, [] => simp [pySplitAux]
  | 0, c :: cs => simp [pySplitAux]
  | fuel + 1, c :: cs =>
    rw [pySplitAux]
    by_cases hp : pyStartsWith sep (c :: cs) = true
    · simp [hp]
    · simp only [hp]
      cases h : pySplitAux sep fuel cs <;> simp

theorem intercalate_cons₂ (sep x y : List Char) (zs : List (List Char)) :
    List.intercalate sep (x :: y :: zs) =
      x ++ sep ++ List.intercalate sep (y :: zs) := by
  simp [List.intercalate, List.intersperse, List.append_assoc]

theorem intercalate_single (sep x : List Char) :
    List.intercalate sep [x] = x := by
  simp [List.intercalate, List.intersperse]

theorem intercalate_pySplitAux (sep : List Char) (hsep : sep ≠ [])
    (fuel : Nat) (s : List Char) (hlen : s.length ≤ fuel) :
    List.intercalate sep (pySplitAux sep fuel s) = s := by
  induction fuel generalizing s with
  | zero =>
    have hs : s = [] := by
      cases s with
      | nil => rfl
      | cons c cs => simp at hlen
    subst hs
    simp [pySplitAux, intercalate_single]
  | succ fuel ih =>
    cases s with
    | nil => simp [pySplitAux, intercalate_single]
    | cons c cs =>
      rw [pySplitAux]
      by_cases hp : pyStartsWith sep (c :: cs) = true
      · simp only [hp, if_true]
        have hsp : 1 ≤ sep.length := List.length_pos.mpr hsep
        have hlen2 : ((c :: cs).drop sep.length).length ≤ fuel := by
          simp only [List.length_drop]
          simp only [List.length_cons] at hlen ⊢
          omega
        obtain ⟨t, ts, ht⟩ :=
          List.exists_cons_of_ne_nil
            (pySplitAux_ne_nil sep fuel ((c :: cs).drop sep.length))
        rw [ht, intercalate_cons₂, ← ht, ih _ hlen2]
        simpa using pyStartsWith_append hp
      · rw [if_neg hp]
        have hlen2 : cs.length ≤ fuel := by
          simp only [List.length_cons] at hlen
          omega
        obtain ⟨t, ts, ht⟩ :=
          List.exists_cons_of_ne_nil (pySplitAux_ne_nil sep fuel cs)
        rw [ht]
        have hred : (match t :: ts with
            | [] => [[c]]
            | t :: ts => (c :: t) :: ts) = (c :: t) :: ts := rfl
        rw [hred]
        have hrest : List.intercalate sep (t :: ts) = cs := by
          rw [← ht, ih _ hlen2]
        cases ts with
        | nil => simp [intercalate_single] at hrest ⊢; simp [hrest]
        | cons u us =>
          rw [intercalate_cons₂] at hrest ⊢
          simp [hrest]

theorem map_data_mk (L : List (List Char)) : L.map (String.data ∘ String.mk) = L := by
  induction L with
  | nil => rfl
  | cons a as ih => simp only [List.map_cons, ih, Function.comp_apply]

theorem pyJoin_pySplit (sep s : String) (hsep : sep ≠ "") :
    pyJoin sep (pySplit sep s) = s := by
  have hdata : sep.data ≠ [] := by
    intro h
    apply hsep
    cases sep with
    | mk d => simp at h; simp [h]
  unfold pyJoin pySplit pySplitList
  rw [List.map_map, map_data_mk,
    intercalate_pySplitAux sep.data hdata s.data.length s.data le_rfl]

/-! ## Reviewer-Event Reconciler (src/clients/github_client.py) -/

/-- One timeline event as consumed by `get_most_recent_reviewer`:
`event` models `event.get("event")` (`none` when the key is absent) and
`requested_reviewer` models the login inside `event.get("requested_reviewer")`
(`none` when the key is absent or null). -/
structure TimelineEvent where
  event : Option String
  requested_reviewer : Option String
  deriving DecidableEq

/-- The per-event filter applied during pagination:
`event.get("event") == "review_requested" and event.get("requested_reviewer")`. -/
def eventMatches (e : TimelineEvent) : Bool :=
  e.event == some "review_requested" && e.requested_reviewer.isSome

/-- Embeds the pagination loop of `get_most_recent_reviewer`: pages are
fetched in ascending order; an empty page ends the loop; each fetched page is
filtered by `eventMatches` and appended to the accumulator.  The input list
holds the pages the server would serve in order; the server returns an empty
page after the list is exhausted. -/
def collect_filtered : List (List TimelineEvent) → List TimelineEvent
  | [] => []
  | p :: ps => if p.isEmpty then [] else p.filter eventMatches ++ collect_filtered ps

/-- Embeds `GithubClient.get_most_recent_reviewer`: after pagination, iterate
the filtered accumulator in reverse and return the first
`event["requested_reviewer"]["login"]` (the filter guarantees the
`requested_reviewer` field is present), or `None` when the accumulator is
empty. -/
def get_most_recent_reviewer (pages : List (List TimelineEvent)) : Option String :=
  match (collect_filtered pages).getLast? with
  | some e => e.requested_reviewer
  | none => none

theorem collect_filtered_eq (pages : List (List TimelineEvent)) :
    collect_filtered pages =
      ((pages.takeWhile fun p => !p.isEmpty).flatten).filter eventMatches := by
  induction pages with
  | nil => simp [collect_filtered]
  | cons p ps ih =>
    rw [collect_filtered]
    by_cases hp : p.isEmpty
    · simp [hp, List.takeWhile_cons]
    · simp only [hp, if_false, List.takeWhile_cons]
      simp only [Bool.not_eq_true'] at hp
      simp [hp, List.filter_append, ih]

/-- C1: across its paginated input (pages read in ascending order, stopping
at the first empty page), `get_most_recent_reviewer` returns the
requested-reviewer login of the chronologically last event of the
concatenated filtered sequence whose type is `review_requested` and whose
`requested_reviewer` is non-null, and `none` when no such event exists. -/
theorem get_most_recent_reviewer_correct (pages : List (List TimelineEvent)) :
    get_most_recent_reviewer pages =
      ((((pages.takeWhile fun p => !p.isEmpty).flatten).filter eventMatches).getLast?).bind
        TimelineEvent.requested_reviewer := by
  rw [get_most_recent_reviewer, collect_filtered_eq]
  cases h : (((pages.takeWhile fun p => !p.isEmpty).flatten).filter eventMatches).getLast? with
  | none => simp
  | some e => simp

/-! ## Diff Segmenter (the loop of `analyze_patch` in src/main.py) -/

/-- Line-boundary characters recognised by Python `str.splitlines`. -/
def isPyLineBreak (c : Char) : Bool :=
  c = '\n' || c = '\r' || c = '\x0b' || c = '\x0c' ||
  c = '\x1c' || c = '\x1d' || c = '\x1e' || c = '\u0085' ||
  c = '\u2028' || c = '\u2029'

/-- Embeds `chgs_text.split("b/")[1].splitlines()[0]` from `analyze_patch`.
Indexing `[1]` raises `IndexError` when the chunk has no `b/` occurrence;
`splitlines()[0]` raises `IndexError` when the text after the first `b/` is
empty; otherwise the file name is the first line of that text. -/
def extract_file_name (chgs_text : String) : Except PyExn String :=
  match (pySplit "b/" chgs_text).get? 1 with
  | none => Except.error PyExn.indexError
  | some s2 =>
    if s2 = "" then Except.error PyExn.indexError
    else Except.ok (String.mk (s2.data.takeWhile fun c => !isPyLineBreak c))

/-- The exception classes named in the `except (TypeError, ValueError)` clause
of `analyze_patch`. -/
def caughtByAnalyzePatch : PyExn → Bool
  | PyExn.typeError => true
  | PyExn.valueError => true
  | _ => false

/-- Python `str(e)` for the embedded exception values. -/
def pyExnStr : PyExn → String
  | PyExn.indexError => "list index out of range"
  | PyExn.typeError => "type error"
  | PyExn.valueError => "value error"
  | PyExn.nameError => "name error"

/-- The block appended to `combined_chgs` for one processed chunk:
`f"\n### File: {file_name}\n|||chgs\n{chgs_text}|||\n"` where `|||` stands for
the triple-backtick fence of the source. -/
def chunkBlock (file_name chgs_text : String) : String :=
  "\n### File: " ++ file_name ++ "\n```chgs\n" ++ chgs_text ++ "```\n"

/-- The per-file error comment posted from the `except` clause of
`analyze_patch`. -/
def chunkErrorComment (file_name : String) (e : PyExn) : String :=
  "ChatGPT was unable to process the response for " ++ file_name ++ ": " ++ pyExnStr e

/-- Observable outcome of the segmentation loop of `analyze_patch`:
the `(file_name, chgs_text)` pairs successfully processed in order, the
accumulated `combined_chgs` text, the per-file error comments posted from the
`except` clause in order, and the exception that escaped the loop, if any. -/
structure SegOut where
  entries : List (String × String)
  combined : String
  errorComments : List String
  uncaught : Option PyExn
  deriving DecidableEq

/-- Embeds the `for chgs_text in patch_content.split(" diff ")` loop of
`analyze_patch`.  The second argument tracks the last value bound to
`file_name`, which the `except` clause reads; if that clause runs before any
binding exists, Python raises `NameError` (unrecoverable here).  An exception
not named in the `except` clause escapes the loop at once, leaving the
remaining chunks unprocessed. -/
def segLoop : List String → Option String → SegOut
  | [], _ => ⟨[], "", [], none⟩
  | chgs_text :: rest, lastName =>
    if chgs_text = "" then segLoop rest lastName
    else
      match extract_file_name chgs_text with
      | Except.ok file_name =>
        let r := segLoop rest (some file_name)
        ⟨(file_name, chgs_text) :: r.entries,
          chunkBlock file_name chgs_text ++ r.combined,
          r.errorComments, r.uncaught⟩
      | Except.error e =>
        if caughtByAnalyzePatch e then
          match lastName with
          | some fn =>
            let r := segLoop rest lastName
            ⟨r.entries, r.combined, chunkErrorComment fn e :: r.errorComments, r.uncaught⟩
          | none => ⟨[], "", [], some PyExn.nameError⟩
        else ⟨[], "", [], some e⟩

/-- The whole segmentation phase of `analyze_patch`: split the patch text on
the literal `" diff "` delimiter and run the loop. -/
def analyze_patch_seg (patch_content : String) : SegOut :=
  segLoop (pySplit " diff " patch_content) none

/-- A chunk is well formed when it is non-empty and has a `b/` marker
followed by a (possibly further continuing) filename line, exactly the
condition under which `extract_file_name` succeeds. -/
def wellFormedChunk (c : String) : Bool :=
  (c != "") &&
    (match (pySplit "b/" c).get? 1 with
     | some s2 => s2 != ""
     | none => false)

theorem extract_ok_of_wellFormed {c : String} (h : wellFormedChunk c = true) :
    ∃ fn, extract_file_name c = Except.ok fn := by
  unfold wellFormedChunk at h
  cases hg : (pySplit "b/" c).get? 1 with
  | none => rw [hg] at h; simp at h
  | some s2 =>
    rw [hg] at h
    simp only [Bool.and_eq_true, bne_iff_ne, ne_eq] at h
    refine ⟨String.mk (s2.data.takeWhile fun c => !isPyLineBreak c), ?_⟩
    simp only [extract_file_name]
    rw [hg]
    simp [h.2]

theorem wellFormed_ne_empty {c : String} (h : wellFormedChunk c = true) : c ≠ "" := by
  unfold wellFormedChunk at h
  simp only [Bool.and_eq_true, bne_iff_ne, ne_eq] at h
  exact h.1

theorem segLoop_all_wellFormed (chunks : List String)
    (h : ∀ c ∈ chunks, wellFormedChunk c = true) (lastName : Option String) :
    (segLoop chunks lastName).entries.map Prod.snd = chunks ∧
    (segLoop chunks lastName).errorComments = [] ∧
    (segLoop chunks lastName).uncaught = none := by
  induction chunks generalizing lastName with
  | nil => exact ⟨rfl, rfl, rfl⟩
  | cons c rest ih =>
    have hc : wellFormedChunk c = true := h c (List.mem_cons_self c rest)
    have hrest : ∀ x ∈ rest, wellFormedChunk x = true :=
      fun x hx => h x (List.mem_cons_of_mem c hx)
    obtain ⟨fn, hfn⟩ := extract_ok_of_wellFormed hc
    rw [segLoop, if_neg (wellFormed_ne_empty hc), hfn]
    obtain ⟨h1, h2, h3⟩ := ih hrest (some fn)
    exact ⟨by simp [h1], h2, h3⟩

/-- C3: when every chunk of the `" diff "` split of a patch is well formed
(non-empty, with a `b/` marker followed by a filename line), the segmenter
produces exactly one `(filename, chunk)` entry per chunk, the raw chunk texts
of the entries are the chunks themselves, and rejoining them with the split
delimiter reconstructs the original patch text; no error is recorded and no
exception escapes. -/
theorem analyze_patch_seg_complete (patch_content : String)
    (h : ∀ c ∈ pySplit " diff " patch_content, wellFormedChunk c = true) :
    (analyze_patch_seg patch_content).entries.length =
      (pySplit " diff " patch_content).length ∧
    (analyze_patch_seg patch_content).entries.map Prod.snd =
      pySplit " diff " patch_content ∧
    pyJoin " diff " ((analyze_patch_seg patch_content).entries.map Prod.snd) =
      patch_content ∧
    (analyze_patch_seg patch_content).errorComments = [] ∧
    (analyze_patch_seg patch_content).uncaught = none := by
  obtain ⟨h1, h2, h3⟩ := segLoop_all_wellFormed (pySplit " diff " patch_content) h none
  unfold analyze_patch_seg
  refine ⟨by simpa using congrArg List.length h1, h1, ?_, h2, h3⟩
  rw [h1]
  exact pyJoin_pySplit " diff " patch_content (by decide)

/-- C3 witness: a concrete two-file patch whose chunks are well formed and
for which the conclusion of the segmentation theorem is checked. -/
theorem analyze_patch_seg_complete_witness :
    (∀ c ∈ pySplit " diff " "--git a/x.py b/x.py\n+print(1) diff --git a/y.py b/y.py\n+print(2)",
      wellFormedChunk c = true) ∧
    ((analyze_patch_seg "--git a/x.py b/x.py\n+print(1) diff --git a/y.py b/y.py\n+print(2)").entries.length =
      (pySplit " diff " "--git a/x.py b/x.py\n+print(1) diff --git a/y.py b/y.py\n+print(2)").length ∧
    (analyze_patch_seg "--git a/x.py b/x.py\n+print(1) diff --git a/y.py b/y.py\n+print(2)").entries.map Prod.snd =
      pySplit " diff " "--git a/x.py b/x.py\n+print(1) diff --git a/y.py b/y.py\n+print(2)" ∧
    pyJoin " diff " ((analyze_patch_seg "--git a/x.py b/x.py\n+print(1) diff --git a/y.py b/y.py\n+print(2)").entries.map Prod.snd) =
      "--git a/x.py b/x.py\n+print(1) diff --git a/y.py b/y.py\n+print(2)" ∧
    (analyze_patch_seg "--git a/x.py b/x.py\n+print(1) diff --git a/y.py b/y.py\n+print(2)").errorComments = [] ∧
    (analyze_patch_seg "--git a/x.py b/x.py\n+print(1) diff --git a/y.py b/y.py\n+print(2)").uncaught = none) :=
  ⟨by decide, analyze_patch_seg_complete
    "--git a/x.py b/x.py\n+print(1) diff --git a/y.py b/y.py\n+print(2)" (by decide)⟩

/-- C2: on a patch whose second chunk lacks the `b/` marker, the failing
chunk raises `IndexError`, which the `except (TypeError, ValueError)` clause
does not catch: the loop aborts, no per-file error comment is recorded, and
the well-formed sibling chunk after the malformed one is never processed. -/
theorem malformed_chunk_aborts_segmentation :
    (analyze_patch_seg "--git a/x.py b/x.py\n+1 diff nomarker diff --git a/y.py b/y.py\n+2").uncaught =
      some PyExn.indexError ∧
    (analyze_patch_seg "--git a/x.py b/x.py\n+1 diff nomarker diff --git a/y.py b/y.py\n+2").errorComments = [] ∧
    (analyze_patch_seg "--git a/x.py b/x.py\n+1 diff nomarker diff --git a/y.py b/y.py\n+2").entries.map Prod.fst =
      ["x.py"] ∧
    wellFormedChunk "--git a/y.py b/y.py\n+2" = true := by
  refine ⟨?_, ?_, ?_, ?_⟩ <;> decide

/-! ## Review-Prompt Builder (`create_review_prompt` in src/main.py) -/

/-- Python f-string rendering of an optional string: `None` renders as the
four characters `None`. -/
def pyFormatOptStr : Option String → String
  | none => "None"
  | some s => s

/-- Python truthiness of an optional string: `None` and the empty string are
falsy. -/
def pyTruthyOptStr : Option String → Bool
  | none => false
  | some s => s != ""

/-- The custom-template branch of `create_review_prompt`, verbatim from the
source. -/
def custom_review_body (custom_prompt content language : String) : String :=
  custom_prompt ++ "\n" ++
  "### Code\n" ++
  "```" ++ content ++ "```\n\n" ++
  "Write this code review in the following " ++ language ++ ":\n\n"

/-- The default-rubric branch of `create_review_prompt`, verbatim from the
source; `max_tokens_str` is the f-string rendering of the `max_tokens`
argument. -/
def default_review_body (content language max_tokens_str : String) : String :=
  "You are now an expert code reviewer. Please review the following code for clarity, efficiency, and adherence to best practices. " ++
  "Identify any areas for improvement, suggest specific optimizations, and note potential bugs or security vulnerabilities. " ++
  "Additionally, provide suggestions for how to address the identified issues, with a focus on maintainability and scalability. " ++
  "Include examples of code where relevant. Use markdown formatting for your response:\n\n" ++
  "Keep your responses within the defined max token limit of " ++ max_tokens_str ++ ", ensuring you summarize as necessary to stay within the limit." ++
  "Make it clear when you summarized to stay within the max token limit and indicate the number of tokens used for the review." ++
  "Write this code review in the following " ++ language ++ ":\n\n" ++
  "Do not write the code or guidelines in the review. Only write the review itself.\n\n" ++
  "### Code\n```" ++ content ++ "```\n\n" ++
  "### Review Guidelines\n" ++
  "1. **Clarity**: Is the code easy to understand?\n" ++
  "2. **Efficiency**: Are there any performance improvements?\n" ++
  "3. **Best Practices**: Does the code follow standard coding conventions?\n" ++
  "4. **Bugs/Security**: Are there any potential bugs or security vulnerabilities?\n" ++
  "5. **Maintainability**: Is the code easy to maintain and scale?\n\n" ++
  "### Review Example\n" ++
  "1. **Issue**: The variable names are not descriptive.\n" ++
  "   **Suggestion**: Use more descriptive variable names that reflect their purpose. For example:\n" ++
  "   ```python\n" ++
  "   # Instead of this:\n" ++
  "   x = 5\n" ++
  "   # Use this:\n" ++
  "   item_count = 5\n" ++
  "   ```\n" ++
  "2. **Issue**: There is a potential SQL injection vulnerability.\n" ++
  "   **Suggestion**: Use parameterized queries to prevent SQL injection. For example:\n" ++
  "   ```python\n" ++
  "   # Instead of this:\n" ++
  "   cursor.execute(\x27SELECT * FROM users WHERE username = (username)\x27)\n" ++
  "   # Use this:\n" ++
  "   cursor.execute(\x27SELECT * FROM users WHERE username = %s\x27, (username,))\n" ++
  "   ```"

/-- Embeds `create_review_prompt(content, language, max_tokens, custom_prompt=None)`.
Python is untyped: in the orchestrated path the third positional parameter
`max_tokens` receives the CUSTOM_PROMPT configuration value (an optional
string), because both call sites in src/main.py pass only three positional
arguments, so it is modelled as `Option String` here and rendered by the
f-string as `pyFormatOptStr`. -/
def create_review_prompt (content language : String) (max_tokens : Option String)
    (custom_prompt : Option String) : String :=
  if pyTruthyOptStr custom_prompt then
    custom_review_body (custom_prompt.getD "") content language
  else
    default_review_body content language (pyFormatOptStr max_tokens)

/-- The shape of both orchestrated calls of `create_review_prompt`
(`analyze_commit_files` line 166 and `analyze_patch` line 206):
`create_review_prompt(content, language, custom_prompt)` binds the
configuration value `custom_prompt` to the `max_tokens` parameter and leaves
the `custom_prompt` parameter at its default `None`. -/
def orchestrated_review_prompt (content language : String)
    (custom_prompt : Option String) : String :=
  create_review_prompt content language custom_prompt none

/-- Boolean substring test on character lists (Python `pat in s`). -/
def listContains (pat : List Char) : List Char → Bool
  | [] => pat.isEmpty
  | c :: rest => pyStartsWith pat (c :: rest) || listContains pat rest

/-- Boolean substring test on strings (Python `pat in s`). -/
def strContains (s pat : String) : Bool :=
  listContains pat.data s.data

/-! ## Completion Requester (`generate_response` in src/clients/openai_client.py) -/

/-- One streamed API chunk as the source reads it: `choices` is `none` when
the chunk has no `"choices"` key, otherwise the list of per-choice
`delta.get("content", "")` values (each `none` when the `content` key is
absent). -/
structure StreamChunk where
  choices : Option (List (Option String))
  deriving DecidableEq

/-- The fragment yielded for one chunk when `"choices" in chunk` holds and
the choices list is non-empty: `chunk["choices"][0]["delta"].get("content", "")`. -/
def chunkContent? (ch : StreamChunk) : Option String :=
  match ch.choices with
  | some (d :: _) => some (d.getD "")
  | _ => none

/-- A Python call result: either a plain string or a generator object,
described by the fragments iterating it would yield and the value carried by
its final `StopIteration`. -/
inductive PyCallResult where
  | str (s : String)
  | generator (yields : List String) (stopValue : Option String)
  deriving DecidableEq

/-- Embeds a call of `OpenAIClient.generate_response(prompt, stream)`.
Because the body of `generate_response` contains a `yield` statement, Python
compiles the whole function as a generator function: the call executes none
of the body and returns a generator object whatever the value of `stream`.
Exhausting that generator runs the body: with `stream=True` it yields the
delta content of every chunk that carries a non-empty choices list; with
`stream=False` it yields nothing, and the `return` statement only becomes the
value of the final `StopIteration`.  `apiText` and `apiChunks` are the oracle
for what the completion endpoint would answer in the two modes. -/
def generate_response (prompt : String) (stream : Bool) (apiText : String)
    (apiChunks : List StreamChunk) : PyCallResult :=
  PyCallResult.generator
    (if stream then apiChunks.filterMap chunkContent? else [])
    (if stream then none else some apiText)

/-- Recogniser for the string alternative of `PyCallResult`. -/
def isStrResult : PyCallResult → Bool
  | PyCallResult.str _ => true
  | _ => false

/-- C6: the claim says a blocking call (`stream=False`) returns the complete
generated text as a string.  It does not: the body of `generate_response`
contains `yield`, so the call returns a generator object; the text of the
`return` statement is only reachable as the `StopIteration` value of a
generator nobody iterates in the orchestrated path. -/
theorem generate_response_blocking_returns_generator :
    generate_response "review this code" false "the full review text" [] =
      PyCallResult.generator [] (some "the full review text") ∧
    isStrResult (generate_response "review this code" false "the full review text" []) =
      false :=
  ⟨rfl, rfl⟩

/-! ## Environment Configuration Loader (`get_env_vars` in src/main.py) -/

/-- Characters stripped by Python `str.strip()` with no argument. -/
def isPySpace (c : Char) : Bool :=
  c = ' ' || c = '\t' || c = '\n' || c = '\r' || c = '\x0b' || c = '\x0c'

/-- Python `s.strip()`. -/
def pyStrip (s : String) : String :=
  String.mk (((s.data.dropWhile isPySpace).reverse.dropWhile isPySpace).reverse)

/-- Python `int(s)` for the plain decimal forms: optional surrounding
whitespace, an optional sign, then at least one digit; `none` models the
`ValueError` that any other input raises.  (Underscore digit grouping and
non-ASCII digits are not modelled; no claim depends on them.) -/
def pyParseInt (s : String) : Option Int :=
  match (pyStrip s).data with
  | [] => none
  | c :: rest =>
    let ds := if c = '-' || c = '+' then rest else c :: rest
    if ds ≠ [] ∧ ds.all Char.isDigit then
      let n : Nat := ds.foldl (fun acc d => acc * 10 + (d.toNat - 48)) 0
      some (if c = '-' then -(n : Int) else (n : Int))
    else none

/-- Acceptance of the exponent part of a Python float literal: either nothing
remains, or `e`/`E`, an optional sign and at least one digit consume the rest. -/
def pyFloatExpOk (l : List Char) : Bool :=
  match l with
  | [] => true
  | e :: rest =>
    if e = 'e' || e = 'E' then
      let ds := match rest with
        | c :: rest2 => if c = '-' || c = '+' then rest2 else rest
        | [] => []
      ds ≠ [] && ds.all Char.isDigit
    else false

/-- Python `float(s)` succeeding, for the plain decimal forms: optional
surrounding whitespace and sign, then digits with an optional fractional
part, or a fractional part alone, with an optional exponent.  (The special
forms `inf`, `infinity` and `nan` are not modelled; no claim depends on
them.) -/
def pyFloatOk (s : String) : Bool :=
  let t := (pyStrip s).data
  let u := match t with
    | c :: rest => if c = '-' || c = '+' then rest else t
    | [] => []
  let ipart := u.takeWhile Char.isDigit
  let r1 := u.dropWhile Char.isDigit
  match r1 with
  | '.' :: r2 =>
    let fpart := r2.takeWhile Char.isDigit
    let r3 := r2.dropWhile Char.isDigit
    (ipart ≠ [] || fpart ≠ []) && pyFloatExpOk r3
  | _ => ipart ≠ [] && pyFloatExpOk r1

/-- The converted configuration, as the dictionary built by `get_env_vars`
is consumed by `main`.  `openai_temperature` keeps the validated source text
of the float (only its rendering is ever used downstream, which this
development never inspects). -/
structure EnvVars where
  openai_api_key : String
  gh_token : String
  github_pr_id : Int
  github_reviewer : String
  openai_model : String
  openai_temperature : String
  openai_max_tokens : Int
  mode : String
  language : String
  custom_prompt : Option String
  deriving DecidableEq

/-- Modelled from the spec: the helper `get_env_variable` lives in
`utils/helpers.py`, which is not among the provided sources.  Per the spec
(the configuration loader reads named values, "raising on missing required
ones"; "required keys absent or failing type conversion must abort the run")
and the `get_env_vars` docstring ("Raises ValueError: If any required
environment variable is missing, empty, or has an invalid type"), it returns
the raw environment value and raises `ValueError` when a required variable is
missing or empty; an optional variable is returned as found.  The exact
message text is unknown and irrelevant to every claim. -/
def get_env_variable (env : String → Option String) (var : String)
    (required : Bool) : Except String (Option String) :=
  match env var with
  | none => if required then Except.error (var ++ " is required") else Except.ok none
  | some v =>
    if v = "" ∧ required then Except.error (var ++ " is required")
    else Except.ok (some v)

/-- A required variable of type `str`: fetched by `get_env_variable` and, being
non-empty, converted by `str(value)` (the identity). -/
def reqStr (env : String → Option String) (var : String) : Except String String :=
  match get_env_variable env var true with
  | Except.error m => Except.error m
  | Except.ok none => Except.error (var ++ " is required")
  | Except.ok (some v) => Except.ok v

/-- Conversion `int(value)` with the error message raised by `get_env_vars`. -/
def convInt (var v : String) : Except String Int :=
  match pyParseInt v with
  | some n => Except.ok n
  | none => Except.error (var ++ " must be of type int.")

/-- Conversion `float(value)` with the error message raised by `get_env_vars`;
the validated source text is kept. -/
def convFloat (var v : String) : Except String String :=
  if pyFloatOk v then Except.ok v
  else Except.error (var ++ " must be of type float.")

/-- Embeds `get_env_vars`: the variables are processed in the insertion order
of the `variables` dictionary, the first failure raising `ValueError`;
optional falsy values are stored as `None`. -/
def get_env_vars (env : String → Option String) : Except String EnvVars := do
  let apiKey ← reqStr env "OPENAI_API_KEY"
  let ghToken ← reqStr env "GH_TOKEN"
  let prIdRaw ← reqStr env "GITHUB_PR_ID"
  let prId ← convInt "GITHUB_PR_ID" prIdRaw
  let reviewer ← reqStr env "GITHUB_REVIEWER"
  let model ← reqStr env "OPENAI_MODEL"
  let tempRaw ← reqStr env "OPENAI_TEMPERATURE"
  let temp ← convFloat "OPENAI_TEMPERATURE" tempRaw
  let maxTokRaw ← reqStr env "OPENAI_MAX_TOKENS"
  let maxTok ← convInt "OPENAI_MAX_TOKENS" maxTokRaw
  let mode ← reqStr env "MODE"
  let lang ← reqStr env "LANGUAGE"
  let custom : Option String :=
    match get_env_variable env "CUSTOM_PROMPT" false with
    | Except.ok (some v) => if v = "" then none else some v
    | _ => none
  Except.ok
    { openai_api_key := apiKey, gh_token := ghToken, github_pr_id := prId,
      github_reviewer := reviewer, openai_model := model,
      openai_temperature := temp, openai_max_tokens := maxTok,
      mode := mode, language := lang, custom_prompt := custom }

/-! ## Orchestrator (src/main.py) -/

/-- The observable external actions of a run: issue comments posted to the
pull request, in order, and the prompts of the calls made to the completion
requester, in order. -/
structure Effects where
  comments : List (Int × String)
  completions : List String
  deriving DecidableEq

def noEffects : Effects := { comments := [], completions := [] }

/-- One changed file of a commit, with the content `get_file_content` serves
for it at that commit. -/
structure CommitFile where
  filename : String
  content : String
  deriving DecidableEq

/-- One commit of the pull request, with its changed files. -/
structure Commit where
  sha : String
  files : List CommitFile
  deriving DecidableEq

/-- The oracle for everything the run reads from the outside world: the
timeline pages served to the reconciler, the commit list of the pull request,
the raw patch text, and the f-string rendering of the value that
`generate_response` returned (a generator object; its rendering is opaque
address-dependent text). -/
structure World where
  timeline_pages : List (List TimelineEvent)
  commits : List Commit
  patch_content : String
  review_repr : String
  deriving DecidableEq

/-- The final review comment body,
`f"ChatGPT model: {oai_model}\n mode: {mode}\n temperature: {oai_temp}\n {review}"`. -/
def finalComment (oai_model mode oai_temp review_repr : String) : String :=
  "ChatGPT model: " ++ oai_model ++ "\n mode: " ++ mode ++
  "\n temperature: " ++ oai_temp ++ "\n " ++ review_repr

/-- Embeds `analyze_commit_files`: concatenate the fenced contents of the
files of the commit, call the completion requester once on the orchestrated
prompt, and post one final comment. -/
def analyze_commit_files (pr_id : Int) (commit : Commit) (language : String)
    (custom_prompt : Option String) (oai_model mode oai_temp review_repr : String) :
    Effects :=
  let combined := commit.files.foldl
    (fun acc f => acc ++ "\n### File: " ++ f.filename ++ "\n```" ++ f.content ++ "```\n") ""
  { comments := [(pr_id, finalComment oai_model mode oai_temp review_repr)],
    completions := [orchestrated_review_prompt combined language custom_prompt] }

/-- Embeds `analyze_patch`: run the segmentation loop; error comments are
posted as the loop runs; an exception escaping the loop aborts the function
before the completion request; otherwise one completion request is issued on
the orchestrated prompt over the combined chunks and one final comment is
posted. -/
def analyze_patch (pr_id : Int) (patch_content language : String)
    (custom_prompt : Option String) (oai_model mode oai_temp review_repr : String) :
    Effects × Option PyExn :=
  let seg := analyze_patch_seg patch_content
  let errComments := seg.errorComments.map fun m => (pr_id, m)
  match seg.uncaught with
  | some e => ({ comments := errComments, completions := [] }, some e)
  | none =>
    ({ comments := errComments ++ [(pr_id, finalComment oai_model mode oai_temp review_repr)],
       completions := [orchestrated_review_prompt seg.combined language custom_prompt] },
     none)

/-- Embeds `process_files`: an empty commit list ends the run with no action,
otherwise the last commit is analyzed. -/
def process_files (v : EnvVars) (w : World) : Effects :=
  match w.commits.getLast? with
  | none => noEffects
  | some last =>
    analyze_commit_files v.github_pr_id last v.language v.custom_prompt
      v.openai_model v.mode v.openai_temperature w.review_repr

/-- Embeds `process_patch`: a falsy (empty) patch text posts the fixed
comment and stops; otherwise the patch is analyzed. -/
def process_patch (v : EnvVars) (w : World) : Effects × Option PyExn :=
  if w.patch_content = "" then
    ({ comments := [(v.github_pr_id, "Patch file does not contain any changes")],
       completions := [] }, none)
  else
    analyze_patch v.github_pr_id w.patch_content v.language v.custom_prompt
      v.openai_model v.mode v.openai_temperature w.review_repr

/-- How the process ends: a normal return of `main` (the script then exits
with status 0) or an exception escaping `main` (the interpreter exits with a
non-zero status). -/
inductive ProcExit where
  | normal
  | uncaught (e : PyExn)
  deriving DecidableEq

/-- The operating-system exit status of the two endings. -/
def ProcExit.code : ProcExit → Nat
  | ProcExit.normal => 0
  | ProcExit.uncaught _ => 1

/-- Embeds `main` (together with the `if __name__` guard): a `ValueError`
from `get_env_vars` is caught, logged and swallowed by an early `return`; a
matching most-recent reviewer dispatches on the mode; everything else is a
logged no-op.  Transport-level failures of the HTTP clients are outside the
embedded fragment (every claim below concerns runs where the external calls
themselves succeed). -/
def main_full (env : String → Option String) (w : World) : Effects × ProcExit :=
  match get_env_vars env with
  | Except.error _ => (noEffects, ProcExit.normal)
  | Except.ok v =>
    let reviewer := pyStrip v.github_reviewer
    if get_most_recent_reviewer w.timeline_pages = some reviewer then
      if v.mode = "files" then
        (process_files v w, ProcExit.normal)
      else if v.mode = "patch" then
        match process_patch v w with
        | (eff, none) => (eff, ProcExit.normal)
        | (eff, some e) => (eff, ProcExit.uncaught e)
      else (noEffects, ProcExit.normal)
    else (noEffects, ProcExit.normal)

/-! ## Claim theorems about the orchestrated path -/

/-- An environment built from an association list, for the concrete runs. -/
def envOf (l : List (String × String)) : String → Option String :=
  fun v => (l.find? fun p => p.fst == v).map Prod.snd

/-- A complete valid configuration in `patch` mode, without a custom
template. -/
def envPatch : String → Option String :=
  envOf [("OPENAI_API_KEY", "k"), ("GH_TOKEN", "t"), ("GITHUB_PR_ID", "123"),
         ("GITHUB_REVIEWER", "alice"), ("OPENAI_MODEL", "gpt-4"),
         ("OPENAI_TEMPERATURE", "0.7"), ("OPENAI_MAX_TOKENS", "2000"),
         ("MODE", "patch"), ("LANGUAGE", "en")]

/-- The converted form of `envPatch`. -/
def envPatchVars : EnvVars :=
  { openai_api_key := "k", gh_token := "t", github_pr_id := 123,
    github_reviewer := "alice", openai_model := "gpt-4",
    openai_temperature := "0.7", openai_max_tokens := 2000,
    mode := "patch", language := "en", custom_prompt := none }

/-- The same configuration in `files` mode. -/
def envFiles : String → Option String :=
  envOf [("OPENAI_API_KEY", "k"), ("GH_TOKEN", "t"), ("GITHUB_PR_ID", "123"),
         ("GITHUB_REVIEWER", "alice"), ("OPENAI_MODEL", "gpt-4"),
         ("OPENAI_TEMPERATURE", "0.7"), ("OPENAI_MAX_TOKENS", "2000"),
         ("MODE", "files"), ("LANGUAGE", "en")]

/-- The converted form of `envFiles`. -/
def envFilesVars : EnvVars :=
  { envPatchVars with mode := "files" }

/-- An empty environment: every configuration variable is missing. -/
def envNone : String → Option String := fun _ => none

/-- One timeline page whose single event requests reviewer `alice`. -/
def pageAlice : List (List TimelineEvent) :=
  [[{ event := some "review_requested", requested_reviewer := some "alice" }]]

def worldEmptyPatch : World :=
  { timeline_pages := pageAlice, commits := [], patch_content := "",
    review_repr := "GEN" }

def worldBob : World :=
  { timeline_pages := [[{ event := some "review_requested", requested_reviewer := some "bob" }]],
    commits := [], patch_content := "x", review_repr := "GEN" }

def worldNoCommits : World :=
  { timeline_pages := pageAlice, commits := [], patch_content := "x",
    review_repr := "GEN" }

def worldPatchOneFile : World :=
  { timeline_pages := pageAlice, commits := [],
    patch_content := "--git a/x.py b/x.py\n+print(1)", review_repr := "GEN" }

set_option maxRecDepth 40000 in
/-- C4: the claim expects the custom template to be used as the template of
the prompt, with no default rubric text.  The orchestrated call
`create_review_prompt(content, language, custom_prompt)` instead binds the
custom template to the `max_tokens` parameter, so the default-rubric branch
runs: the template is interpolated into the max-token sentence, the full
rubric text is present, and the prompt is not the custom-template rendering. -/
theorem custom_template_lands_in_max_tokens :
    orchestrated_review_prompt "print(1)" "en" (some "Only check naming.") =
      default_review_body "print(1)" "en" "Only check naming." ∧
    strContains (orchestrated_review_prompt "print(1)" "en" (some "Only check naming."))
      "### Review Guidelines" = true ∧
    strContains (orchestrated_review_prompt "print(1)" "en" (some "Only check naming."))
      "max token limit of Only check naming." = true ∧
    orchestrated_review_prompt "print(1)" "en" (some "Only check naming.") ≠
      custom_review_body "Only check naming." "print(1)" "en" := by
  refine ⟨rfl, rfl, rfl, ?_⟩
  decide

set_option maxRecDepth 40000 in
/-- C5: the claim expects the default-rubric prompt of a run without a custom
template to embed the configured OPENAI_MAX_TOKENS (2000 in this run).  The
configured value never reaches `create_review_prompt`: the `max_tokens`
parameter receives the `None` custom-prompt value, so the prompt states a max
token limit of `None` and the digits 2000 appear nowhere; the configured
language is embedded. -/
theorem default_prompt_ignores_configured_max_tokens :
    get_env_vars envPatch = Except.ok envPatchVars ∧
    envPatchVars.openai_max_tokens = 2000 ∧
    (main_full envPatch worldPatchOneFile).1.completions =
      [orchestrated_review_prompt
        (analyze_patch_seg "--git a/x.py b/x.py\n+print(1)").combined "en" none] ∧
    strContains (orchestrated_review_prompt
      (analyze_patch_seg "--git a/x.py b/x.py\n+print(1)").combined "en" none)
      "max token limit of None" = true ∧
    strContains (orchestrated_review_prompt
      (analyze_patch_seg "--git a/x.py b/x.py\n+print(1)").combined "en" none)
      "2000" = false ∧
    strContains (orchestrated_review_prompt
      (analyze_patch_seg "--git a/x.py b/x.py\n+print(1)").combined "en" none)
      "Write this code review in the following en:" = true :=
  ⟨rfl, rfl, rfl, rfl, rfl, rfl⟩

/-- C7: in `patch` mode with an empty patch text, the run posts exactly the
one fixed comment and issues no completion request. -/
theorem empty_patch_posts_fixed_comment (env : String → Option String)
    (v : EnvVars) (w : World)
    (hv : get_env_vars env = Except.ok v) (hmode : v.mode = "patch")
    (hmatch : get_most_recent_reviewer w.timeline_pages = some (pyStrip v.github_reviewer))
    (hp : w.patch_content = "") :
    main_full env w =
      ({ comments := [(v.github_pr_id, "Patch file does not contain any changes")],
         completions := [] }, ProcExit.normal) := by
  unfold main_full
  rw [hv]
  simp only [hmode]
  rw [if_pos hmatch]
  simp [process_patch, hp]

/-- C7 witness: the concrete empty-patch run. -/
theorem empty_patch_posts_fixed_comment_witness :
    main_full envPatch worldEmptyPatch =
      ({ comments := [(123, "Patch file does not contain any changes")],
         completions := [] }, ProcExit.normal) :=
  empty_patch_posts_fixed_comment envPatch envPatchVars worldEmptyPatch rfl rfl rfl rfl

/-- C8: when the resolved most recent reviewer differs from the configured
reviewer login (which carries no surrounding whitespace, so stripping leaves
it unchanged), the run is a successful no-op: no comment, no completion
request, normal exit. -/
theorem reviewer_mismatch_is_noop (env : String → Option String)
    (v : EnvVars) (w : World)
    (hv : get_env_vars env = Except.ok v)
    (hstrip : pyStrip v.github_reviewer = v.github_reviewer)
    (hne : get_most_recent_reviewer w.timeline_pages ≠ some v.github_reviewer) :
    main_full env w = (noEffects, ProcExit.normal) := by
  unfold main_full
  rw [hv]
  simp only [hstrip]
  rw [if_neg hne]

/-- C8 witness: configured reviewer `alice`, resolved reviewer `bob`. -/
theorem reviewer_mismatch_is_noop_witness :
    main_full envPatch worldBob = (noEffects, ProcExit.normal) :=
  reviewer_mismatch_is_noop envPatch envPatchVars worldBob rfl rfl (by decide)

/-- C9 counterexample: with every configuration variable missing, the run
takes no external action, but the process exit status is 0, not non-zero as
the claim states: `main` catches the `ValueError`, logs it and returns
normally. -/
theorem config_error_exit_status_is_zero :
    (main_full envNone worldEmptyPatch).2.code = 0 ∧
    ¬ (main_full envNone worldEmptyPatch).2.code ≠ 0 ∧
    (main_full envNone worldEmptyPatch).1 = noEffects :=
  ⟨rfl, fun h => h rfl, rfl⟩

/-- C9 (amended): when `get_env_vars` raises on a missing, empty or
ill-typed required configuration value, the run aborts before any external
action, no comment is posted and no completion request is issued, but the
process exits with status zero: the exception is caught and only logged. -/
theorem config_error_noop_exit_zero (env : String → Option String) (w : World)
    (m : String) (h : get_env_vars env = Except.error m) :
    main_full env w = (noEffects, ProcExit.normal) ∧
    (main_full env w).2.code = 0 := by
  unfold main_full
  rw [h]
  exact ⟨rfl, rfl⟩

/-- C9 witness: the all-missing environment aborts with no effects and exit
status zero. -/
theorem config_error_noop_exit_zero_witness :
    main_full envNone worldEmptyPatch = (noEffects, ProcExit.normal) ∧
    (main_full envNone worldEmptyPatch).2.code = 0 :=
  config_error_noop_exit_zero envNone worldEmptyPatch "OPENAI_API_KEY is required" rfl

/-- C10: in `files` mode with an empty commit list, the run ends normally
with no comment posted and no completion request issued. -/
theorem files_mode_empty_commits_noop (env : String → Option String)
    (v : EnvVars) (w : World)
    (hv : get_env_vars env = Except.ok v) (hmode : v.mode = "files")
    (hmatch : get_most_recent_reviewer w.timeline_pages = some (pyStrip v.github_reviewer))
    (hc : w.commits = []) :
    main_full env w = (noEffects, ProcExit.normal) := by
  unfold main_full
  rw [hv]
  simp only [hmode]
  rw [if_pos hmatch]
  simp [process_files, hc]

/-- C10 witness: the concrete no-commit run in `files` mode. -/
theorem files_mode_empty_commits_noop_witness :
    main_full envFiles worldNoCommits = (noEffects, ProcExit.normal) :=
  files_mode_empty_commits_noop envFiles envFilesVars worldNoCommits rfl rfl rfl rfl

end GPTReview
